import Mathlib

/-!
Verification of the synchronization core of the CanvasAppEditor repository
(src/pages/CanvasPage.jsx), shallowly embedded in Lean 4.

The Sync Engine reconciles an in-memory Editing Surface (a fabric canvas,
modelled by its serialized scene blob) with a remotely replicated Canvas
Document.  The per-view reconciliation state consists of the refs
lastLocalJson, isAddingObject, isApplyingRemote and pendingRemoteJson, plus
the status signal.  The handlers embedded below are translated directly from
the source:

  * onSnapshotCb    — the onSnapshot subscription callback (lines 191-228)
  * loadOrCreate    — the initial load-or-create effect (lines 159-188)
  * doSaveTrace     — doSave, the persist operation (lines 281-303)
  * tryApply        — the pending-apply poll body (lines 245-266)
  * pollStep        — one tick of the 50 ms pending-apply interval (268-274)
  * onChange / onObjectRemoved / dispatchEvent — canvas mutation listeners
                      (lines 318-343)
  * changeSelectedObjectColor (lines 357-370), onDeleteKey (lines 507-523)
  * addShape        — the immediate-add path (lines 405-485)
  * debouncedWrites — lodash debounce(doSave, 300) trailing-edge semantics
                      (line 305)

JavaScript truthiness of the optional blob strings is modelled explicitly
(an absent field and the empty string are both falsy).
-/

namespace CanvasSync

/-- JavaScript truthiness of an optional string value: `undefined`/`null`
and the empty string are falsy, every other string is truthy. -/
def jsTruthy : Option String → Bool
  | Option.none => false
  | Option.some s => !(s == "")

/-- A Canvas Document as stored in the document store (`scenes/{id}` with the
braces understood): `data` is the opaque serialized scene blob, `createdAt`
and `updatedAt` are server timestamps, `viewOnly` the flag recorded at
creation.  Fields are optional because a stored document may lack any of
them (e.g. an incompletely written or foreign document). -/
structure StoredDoc where
  data : Option String
  createdAt : Option Nat
  updatedAt : Option Nat
  viewOnly : Option Bool
deriving DecidableEq

/-- Local Reconciliation State of one open canvas view, together with the
Editing Surface it owns.  `surface = none` models `fabricRef.current`
being null (canvas not yet constructed); `surface = some cur` models a live
canvas whose serialized state `JSON.stringify(fc.toJSON())` is `cur`.
`status` is the user-visible status signal. -/
structure SyncState where
  lastLocalJson : Option String
  isAddingObject : Bool
  isApplyingRemote : Bool
  pendingRemoteJson : Option String
  surface : Option String
  status : String
deriving DecidableEq

/-- The empty-scene blob written on create:
`JSON.stringify(\x7b objects: [], background: "#ffffff" \x7d)`. -/
def emptyBlob : String := "\x7b\"objects\":[],\"background\":\"#ffffff\"\x7d"

/-- Effect of the initial load-or-create step on the outside world. -/
inductive LoadEffect
  | loadSurface (blob : String)
  | bufferPending (blob : String)
  | createDoc (d : StoredDoc)
  | nothing
deriving DecidableEq

/-- The load-or-create effect (CanvasPage.jsx lines 159-188): fetch the
document; if it exists with a truthy `data` blob, load it into the surface
(or buffer it if the canvas is not ready); if it does not exist, write a
fresh document with the empty-scene blob, `createdAt = updatedAt = now`
(both `serverTimestamp()` sentinels resolved in the same write) and the
caller-supplied `viewOnly` flag. -/
def loadOrCreate (snap : Option StoredDoc) (surfaceReady : Bool)
    (viewOnly : Bool) (now : Nat) : LoadEffect :=
  match snap with
  | Option.some d =>
    match d.data with
    | Option.some blob =>
      if blob == "" then LoadEffect.nothing
      else if surfaceReady then LoadEffect.loadSurface blob
      else LoadEffect.bufferPending blob
    | Option.none => LoadEffect.nothing
  | Option.none =>
    LoadEffect.createDoc
      { data := Option.some emptyBlob
        createdAt := Option.some now
        updatedAt := Option.some now
        viewOnly := Option.some viewOnly }

/-- Command issued to the Editing Surface by the subscription callback. -/
inductive SnapEffect
  | skip
  | buffer (blob : String)
  | reload (blob : String)
deriving DecidableEq

/-- The onSnapshot subscription callback (CanvasPage.jsx lines 191-228),
as a function of the current reconciliation state and the delivered
snapshot (`none` models `!snap.exists()`).  In source order: a missing
document or falsy `data` is ignored; with no canvas the blob is buffered
into `pendingRemoteJson`; a blob equal to a truthy `lastLocalJson` is the
echo of this client's own write and is skipped; a blob equal to the current
serialized surface state is skipped; otherwise `isApplyingRemote` is set
and the surface is commanded to load the blob. -/
def onSnapshotCb (st : SyncState) (snap : Option StoredDoc) :
    SyncState × SnapEffect :=
  match snap with
  | Option.none => (st, SnapEffect.skip)
  | Option.some remote =>
    match remote.data with
    | Option.none => (st, SnapEffect.skip)
    | Option.some blob =>
      if blob == "" then (st, SnapEffect.skip)
      else
        match st.surface with
        | Option.none =>
          ({ st with pendingRemoteJson := Option.some blob },
           SnapEffect.buffer blob)
        | Option.some cur =>
          if jsTruthy st.lastLocalJson && (st.lastLocalJson == Option.some blob)
          then (st, SnapEffect.skip)
          else if cur ≠ blob then
            ({ st with isApplyingRemote := true
                       surface := Option.some blob
                       status := "Updated from remote" },
             SnapEffect.reload blob)
          else (st, SnapEffect.skip)

/-- One action performed by the persist operation, in source order. -/
inductive SaveAction
  | setStatus (s : String)
  | recordLastLocal (blob : String)
  | storeWrite (blob : String)
deriving DecidableEq

/-- Recognizer for the store-write action of a save trace. -/
def isStoreWrite : SaveAction → Bool
  | SaveAction.storeWrite _ => true
  | _ => false

/-- The persist operation doSave (CanvasPage.jsx lines 281-303).  Guards:
no-op when the canvas is null or while `isApplyingRemote` is set.
Otherwise it sets status "Saving...", serializes the surface, records the
blob in `lastLocalJson` BEFORE issuing the store write, issues one merge
write of `data` and `updatedAt`, and sets status "Saved" on success or
"Save error" on rejection (`writeOk` models whether the write resolves).
The trace lists the performed actions in source order. -/
def doSaveTrace (st : SyncState) (writeOk : Bool) :
    SyncState × List SaveAction :=
  match st.surface with
  | Option.none => (st, [])
  | Option.some cur =>
    if st.isApplyingRemote then (st, [])
    else
      ({ st with lastLocalJson := Option.some cur
                 status := if writeOk then "Saved" else "Save error" },
       [SaveAction.setStatus "Saving...",
        SaveAction.recordLastLocal cur,
        SaveAction.storeWrite cur,
        SaveAction.setStatus (if writeOk then "Saved" else "Save error")])

/-- Effect of one persist write on the stored document:
`setDoc(sceneRef, \x7b data, updatedAt \x7d, \x7b merge: true \x7d)` —
the two named fields are replaced, every other field of the existing
document is left untouched by the merge. -/
def applyPersistWrite (d : StoredDoc) (blob : String) (now : Nat) :
    StoredDoc :=
  { d with data := Option.some blob, updatedAt := Option.some now }

/-- Body of the pending-apply poll, tryApply (CanvasPage.jsx lines 245-266):
if the canvas exists and `pendingRemoteJson` is truthy, set
`isApplyingRemote`, take and clear the buffered blob, clear the canvas and
load the blob into it; returns whether an application happened. -/
def tryApply (st : SyncState) : SyncState × Bool :=
  match st.surface, st.pendingRemoteJson with
  | Option.some _, Option.some json =>
    if json == "" then (st, false)
    else
      ({ st with isApplyingRemote := true
                 pendingRemoteJson := Option.none
                 surface := Option.some json
                 status := "Updated from remote" },
       true)
  | _, _ => (st, false)

/-- One tick of the 50 ms interval driving tryApply (lines 268-274): the
interval is cleared exactly when tryApply returns true; the second
component is whether polling is still active after the tick. -/
def pollStep (st : SyncState) (polling : Bool) : SyncState × Bool :=
  if polling then
    ((tryApply st).1, !(tryApply st).2)
  else (st, false)

/-- A scheduled call into the save machinery. -/
inductive SaveCall
  | debounced
  | immediate
deriving DecidableEq

/-- The onChange mutation listener (lines 318-322), shared by
`object:added`, `object:modified` and `path:created`: no-op when
`viewOnly`, `isAddingObject` or `isApplyingRemote` holds; otherwise it
invokes the debounced save. -/
def onChange (viewOnly isAdding isApplying : Bool) : List SaveCall :=
  if viewOnly || isAdding || isApplying then [] else [SaveCall.debounced]

/-- The onObjectRemoved listener (lines 324-328): invokes the debounced
save exactly when none of the three guard flags holds. -/
def onObjectRemoved (viewOnly isAdding isApplying : Bool) : List SaveCall :=
  if !viewOnly && !isAdding && !isApplying then [SaveCall.debounced] else []

/-- Kinds of canvas mutation events wired to the listeners (lines 330-343). -/
inductive CanvasEvent
  | objectAdded
  | objectModified
  | objectRemoved
  | pathCreated
deriving DecidableEq

/-- Dispatch of a canvas mutation event to its listener. -/
def dispatchEvent (viewOnly isAdding isApplying : Bool) :
    CanvasEvent → List SaveCall
  | CanvasEvent.objectRemoved => onObjectRemoved viewOnly isAdding isApplying
  | _ => onChange viewOnly isAdding isApplying

/-- changeSelectedObjectColor (lines 357-370): returns early when the
canvas is null or the session is view-only, or when nothing is selected;
otherwise recolors the selection and invokes the debounced save. -/
def changeSelectedObjectColor (surfaceReady viewOnly : Bool)
    (activeCount : Nat) : List SaveCall :=
  if !surfaceReady || viewOnly then []
  else if activeCount == 0 then []
  else [SaveCall.debounced]

/-- The Delete/Backspace key handler (lines 507-523): returns early when
the canvas is null or the session is view-only, or when the single active
object is an i-text being edited; otherwise it removes each active object,
firing one `object:removed` event per removal. -/
def onDeleteKey (surfaceReady viewOnly : Bool) (activeCount : Nat)
    (editingSingleIText : Bool) : List CanvasEvent :=
  if !surfaceReady || viewOnly then []
  else if editingSingleIText then []
  else List.replicate activeCount CanvasEvent.objectRemoved

/-- The immediate-add path addShape (lines 405-485): returns early when the
canvas is null or the session is view-only; otherwise it sets
`isAddingObject := true` and `isApplyingRemote := false`, inserts the new
object (taking the serialized surface to `newBlob`), invokes doSave
directly (no debounce), and clears `isAddingObject` in the `finally` once
the save settles. -/
def addShape (st : SyncState) (viewOnly : Bool) (newBlob : String)
    (writeOk : Bool) : SyncState × List SaveAction :=
  match st.surface with
  | Option.none => (st, [])
  | Option.some _ =>
    if viewOnly then (st, [])
    else
      ({ (doSaveTrace
            { st with isAddingObject := true
                      isApplyingRemote := false
                      surface := Option.some newBlob } writeOk).1
          with isAddingObject := false },
       (doSaveTrace
          { st with isAddingObject := true
                    isApplyingRemote := false
                    surface := Option.some newBlob } writeOk).2)

/-- Modelled from the spec: the trailing-edge semantics of the external
debounce utility applied as `debounce(doSave, 300)` (line 305) — the
utility's code is not part of the repository; the spec describes it as
"if another mutation arrives before the debounce fires, the timer restarts
and only the latest pending save executes".
Given the chronologically ordered list of (call time, serialized surface
state at that call) pairs, each call restarts the timer to fire `delay`
after itself; the timer fires only when no further call precedes the fire
time, and the fired save serializes the surface as of the fire time (the
state after the last call of the burst it closes). -/
def debouncedWrites (delay : Nat) : List (Nat × String) → List (Nat × String)
  | [] => []
  | [(t, s)] => [(t + delay, s)]
  | (t1, s1) :: (t2, s2) :: rest =>
    if t2 < t1 + delay then debouncedWrites delay ((t2, s2) :: rest)
    else (t1 + delay, s1) :: debouncedWrites delay ((t2, s2) :: rest)

/-- Modelled from the spec: the Scene Serializer collaborator (the canvas
library, external to the repository sources) deserializes scene blobs with
a JSON parse.  Any JSON document begins, after optional whitespace, with
an object or array opener, a double quote, a digit, a minus sign, or the
first letter of true, false or null; a string failing this necessary
condition is not deserializable (malformed). -/
def couldBeJson (s : String) : Bool :=
  match s.data.dropWhile (fun c => c.isWhitespace) with
  | [] => false
  | c :: _ =>
    c == '\x7b' || c == '[' || c == '"' || c == '-' ||
    c == 't' || c == 'f' || c == 'n' || c.isDigit

/-- C1: Echo suppression.  The persist operation records the serialized
surface blob B in `lastLocalJson` (before issuing the store write, per the
trace order established separately), and from any subsequent state in
which `lastLocalJson` still holds B and the Editing Surface exists, a
remote notification whose `data` field equals B is skipped entirely: the
reconciliation state is unchanged and no reload command is issued. -/
theorem echo_suppression (st : SyncState) (cur : String) (writeOk : Bool)
    (hs : st.surface = Option.some cur) (hf : st.isApplyingRemote = false) :
    (doSaveTrace st writeOk).1.lastLocalJson = Option.some cur ∧
    ∀ (st2 : SyncState) (cur2 : String) (d : StoredDoc),
      st2.lastLocalJson = Option.some cur → st2.surface = Option.some cur2 →
      d.data = Option.some cur →
      onSnapshotCb st2 (Option.some d) = (st2, SnapEffect.skip) := by
  constructor
  · simp [doSaveTrace, hs, hf]
  · intro st2 cur2 d h1 h2 hd
    by_cases hcur : cur = ""
    · simp [onSnapshotCb, hd, hcur]
    · simp [onSnapshotCb, hd, hcur, h2, h1, jsTruthy]

/-- C1 witness: a concrete run of the echo-suppression theorem. -/
theorem echo_suppression_witness :
    (doSaveTrace ⟨Option.none, false, false, Option.none,
        Option.some "b1", "Ready"⟩ true).1.lastLocalJson =
      Option.some "b1" ∧
    ∀ (st2 : SyncState) (cur2 : String) (d : StoredDoc),
      st2.lastLocalJson = Option.some "b1" → st2.surface = Option.some cur2 →
      d.data = Option.some "b1" →
      onSnapshotCb st2 (Option.some d) = (st2, SnapEffect.skip) :=
  echo_suppression
    ⟨Option.none, false, false, Option.none, Option.some "b1", "Ready"⟩
    "b1" true rfl rfl

/-- C4: Create-if-absent.  Opening a canvas id whose document does not
exist writes a new Canvas Document whose `data` is the empty-scene blob
(the JSON string with an empty object list and the default background),
with `createdAt = updatedAt = now` and `viewOnly` the caller-supplied
flag. -/
theorem create_if_absent (surfaceReady viewOnly : Bool) (now : Nat) :
    loadOrCreate Option.none surfaceReady viewOnly now =
      LoadEffect.createDoc
        ⟨Option.some emptyBlob, Option.some now, Option.some now,
         Option.some viewOnly⟩ ∧
    emptyBlob = "\x7b\"objects\":[],\"background\":\"#ffffff\"\x7d" :=
  ⟨rfl, rfl⟩

/-- C6: No-op on identical remote state.  A remote notification whose blob
is byte-for-byte identical to the current serialized surface state (and
not equal to `lastLocalJson`) is skipped: state unchanged, no reload
command issued to the Editing Surface. -/
theorem identical_remote_noop (st : SyncState) (cur : String) (d : StoredDoc)
    (hs : st.surface = Option.some cur) (hd : d.data = Option.some cur)
    (hne : st.lastLocalJson ≠ Option.some cur) :
    onSnapshotCb st (Option.some d) = (st, SnapEffect.skip) := by
  by_cases hcur : cur = ""
  · simp [onSnapshotCb, hd, hcur]
  · simp [onSnapshotCb, hd, hcur, hs, hne]

/-- C6 witness: a concrete run of the identical-remote no-op theorem. -/
theorem identical_remote_noop_witness :
    onSnapshotCb ⟨Option.some "old", false, false, Option.none,
        Option.some "same", "Ready"⟩
      (Option.some ⟨Option.some "same", Option.none, Option.none,
        Option.none⟩) =
    (⟨Option.some "old", false, false, Option.none,
        Option.some "same", "Ready"⟩, SnapEffect.skip) :=
  identical_remote_noop
    ⟨Option.some "old", false, false, Option.none, Option.some "same",
      "Ready"⟩
    "same" ⟨Option.some "same", Option.none, Option.none, Option.none⟩
    rfl rfl (by decide)

/-- C7: Persist frame.  Every persist write is a merge write setting only
`data` and `updatedAt`, so the stored `createdAt` and `viewOnly` fields are
unchanged; and the persist trace records the blob in `lastLocalJson`
strictly before issuing the store write (trace in source order: set status,
record, write, final status). -/
theorem persist_frame (d : StoredDoc) (blob : String) (now : Nat)
    (st : SyncState) (cur : String) (writeOk : Bool)
    (hs : st.surface = Option.some cur) (hf : st.isApplyingRemote = false) :
    (applyPersistWrite d blob now).createdAt = d.createdAt ∧
    (applyPersistWrite d blob now).viewOnly = d.viewOnly ∧
    (applyPersistWrite d blob now).data = Option.some blob ∧
    (applyPersistWrite d blob now).updatedAt = Option.some now ∧
    (doSaveTrace st writeOk).2 =
      [SaveAction.setStatus "Saving...",
       SaveAction.recordLastLocal cur,
       SaveAction.storeWrite cur,
       SaveAction.setStatus (if writeOk then "Saved" else "Save error")] := by
  refine ⟨rfl, rfl, rfl, rfl, ?_⟩
  simp [doSaveTrace, hs, hf]

/-- C7 witness: a concrete run of the persist-frame theorem. -/
theorem persist_frame_witness :
    (applyPersistWrite ⟨Option.some "old", Option.some 1, Option.some 1,
        Option.some true⟩ "b2" 5).createdAt = Option.some 1 ∧
    (applyPersistWrite ⟨Option.some "old", Option.some 1, Option.some 1,
        Option.some true⟩ "b2" 5).viewOnly = Option.some true ∧
    (applyPersistWrite ⟨Option.some "old", Option.some 1, Option.some 1,
        Option.some true⟩ "b2" 5).data = Option.some "b2" ∧
    (applyPersistWrite ⟨Option.some "old", Option.some 1, Option.some 1,
        Option.some true⟩ "b2" 5).updatedAt = Option.some 5 ∧
    (doSaveTrace ⟨Option.none, false, false, Option.none,
        Option.some "b2", "Ready"⟩ true).2 =
      [SaveAction.setStatus "Saving...",
       SaveAction.recordLastLocal "b2",
       SaveAction.storeWrite "b2",
       SaveAction.setStatus (if true then "Saved" else "Save error")] :=
  persist_frame
    ⟨Option.some "old", Option.some 1, Option.some 1, Option.some true⟩
    "b2" 5
    ⟨Option.none, false, false, Option.none, Option.some "b2", "Ready"⟩
    "b2" true rfl rfl

/-- C8: Write-failure atomicity.  When the store write inside persist
rejects, the only surfaced effect is the transient status "Save error";
exactly one store write was attempted (no automatic retry); the in-memory
surface state and the guard flags are unchanged; and the next mutation
event on the resulting state re-triggers a save through the normal
debounced path. -/
theorem write_failure_atomicity (st : SyncState) (cur : String)
    (hs : st.surface = Option.some cur) (hf : st.isApplyingRemote = false)
    (ha : st.isAddingObject = false) :
    (doSaveTrace st false).1.status = "Save error" ∧
    (doSaveTrace st false).2.filter isStoreWrite =
      [SaveAction.storeWrite cur] ∧
    (doSaveTrace st false).1.surface = st.surface ∧
    (doSaveTrace st false).1.isAddingObject = st.isAddingObject ∧
    (doSaveTrace st false).1.isApplyingRemote = st.isApplyingRemote ∧
    dispatchEvent false (doSaveTrace st false).1.isAddingObject
      (doSaveTrace st false).1.isApplyingRemote CanvasEvent.objectModified =
      [SaveCall.debounced] := by
  simp [doSaveTrace, hs, hf, ha, isStoreWrite, dispatchEvent, onChange]

/-- C8 witness: a concrete run of the write-failure theorem. -/
theorem write_failure_atomicity_witness :
    (doSaveTrace ⟨Option.none, false, false, Option.none,
        Option.some "b3", "Ready"⟩ false).1.status = "Save error" ∧
    (doSaveTrace ⟨Option.none, false, false, Option.none,
        Option.some "b3", "Ready"⟩ false).2.filter isStoreWrite =
      [SaveAction.storeWrite "b3"] ∧
    (doSaveTrace ⟨Option.none, false, false, Option.none,
        Option.some "b3", "Ready"⟩ false).1.surface = Option.some "b3" ∧
    (doSaveTrace ⟨Option.none, false, false, Option.none,
        Option.some "b3", "Ready"⟩ false).1.isAddingObject = false ∧
    (doSaveTrace ⟨Option.none, false, false, Option.none,
        Option.some "b3", "Ready"⟩ false).1.isApplyingRemote = false ∧
    dispatchEvent false
      (doSaveTrace ⟨Option.none, false, false, Option.none,
        Option.some "b3", "Ready"⟩ false).1.isAddingObject
      (doSaveTrace ⟨Option.none, false, false, Option.none,
        Option.some "b3", "Ready"⟩ false).1.isApplyingRemote
      CanvasEvent.objectModified = [SaveCall.debounced] :=
  write_failure_atomicity
    ⟨Option.none, false, false, Option.none, Option.some "b3", "Ready"⟩
    "b3" rfl rfl rfl

/-- C10: Immediate-add bypass.  addShape unconditionally clears
`isApplyingRemote` before inserting the object and invoking persist, so
even from a state in which `isApplyingRemote` was true at entry the
immediate save proceeds: the trace contains exactly one store write, of
the surface state with the new object, and the written blob is recorded in
`lastLocalJson`. -/
theorem immediate_add_bypass (st : SyncState) (cur newBlob : String)
    (writeOk : Bool) (hs : st.surface = Option.some cur)
    (hr : st.isApplyingRemote = true) :
    (addShape st false newBlob writeOk).2.filter isStoreWrite =
      [SaveAction.storeWrite newBlob] ∧
    (addShape st false newBlob writeOk).1.lastLocalJson =
      Option.some newBlob ∧
    (addShape st false newBlob writeOk).1.isAddingObject = false := by
  simp [addShape, hs, doSaveTrace, isStoreWrite]

/-- C10 witness: a concrete run of the immediate-add bypass theorem, from
a state where a remote apply was in progress at the moment of the add. -/
theorem immediate_add_bypass_witness :
    (addShape ⟨Option.none, false, true, Option.none, Option.some "b4",
        "Ready"⟩ false "b5" true).2.filter isStoreWrite =
      [SaveAction.storeWrite "b5"] ∧
    (addShape ⟨Option.none, false, true, Option.none, Option.some "b4",
        "Ready"⟩ false "b5" true).1.lastLocalJson = Option.some "b5" ∧
    (addShape ⟨Option.none, false, true, Option.none, Option.some "b4",
        "Ready"⟩ false "b5" true).1.isAddingObject = false :=
  immediate_add_bypass
    ⟨Option.none, false, true, Option.none, Option.some "b4", "Ready"⟩
    "b4" "b5" true rfl rfl

/-- C3: View-only enforcement.  In a session with `viewOnly = true`, no
mutation entry point ever reaches the save machinery: every wired canvas
mutation event dispatches to no save call, the color-change path issues no
save call, the Delete/Backspace handler removes nothing (so fires no
`object:removed` event), and the add-shape path returns with the state
unchanged and an empty trace — no call to persist, no store write. -/
theorem view_only_enforcement (isAdding isApplying surfaceReady : Bool)
    (editingSingleIText : Bool) (activeCount : Nat) (ev : CanvasEvent)
    (st : SyncState) (newBlob : String) (writeOk : Bool) :
    dispatchEvent true isAdding isApplying ev = [] ∧
    changeSelectedObjectColor surfaceReady true activeCount = [] ∧
    onDeleteKey surfaceReady true activeCount editingSingleIText = [] ∧
    addShape st true newBlob writeOk = (st, []) := by
  refine ⟨?_, ?_, ?_, ?_⟩
  · cases ev <;> simp [dispatchEvent, onChange, onObjectRemoved]
  · simp [changeSelectedObjectColor]
  · simp [onDeleteKey]
  · cases h : st.surface <;> simp [addShape, h]

/-- Helper for the debounce analysis: on a burst in which every successive
call arrives strictly less than `delay` after the previous one, the
trailing-edge debounce fires exactly once, `delay` after the final call,
with the surface state of the final call. -/
theorem debouncedWrites_burst (delay : Nat) :
    ∀ (evs : List (Nat × String)) (hne : evs ≠ []),
      evs.Chain' (fun a b => b.1 < a.1 + delay) →
      debouncedWrites delay evs =
        [((evs.getLast hne).1 + delay, (evs.getLast hne).2)]
  | [], hne, _ => absurd rfl hne
  | [(t, s)], _, _ => rfl
  | (t1, s1) :: (t2, s2) :: rest, _, hch => by
    have h12 : t2 < t1 + delay := (List.chain'_cons.mp hch).1
    have ih := debouncedWrites_burst delay ((t2, s2) :: rest) (by simp)
      (List.chain'_cons.mp hch).2
    rw [debouncedWrites, if_pos h12, ih]
    rfl

/-- C2: Debounce coalescing.  For a sequence of N ≥ 1 mutation events with
`viewOnly`, `isAddingObject` and `isApplyingRemote` all clear — so that
each event passes the onChange guard and invokes the debounced save — in
which each successive event arrives strictly less than 300 ms after the
previous one, the debounced save fires exactly once, 300 ms after the Nth
event, and writes the serialized surface state after the Nth mutation. -/
theorem debounce_coalescing (evs : List (Nat × String)) (hne : evs ≠ [])
    (hgaps : evs.Chain' (fun a b => b.1 < a.1 + 300)) :
    onChange false false false = [SaveCall.debounced] ∧
    debouncedWrites 300 evs =
      [((evs.getLast hne).1 + 300, (evs.getLast hne).2)] :=
  ⟨rfl, debouncedWrites_burst 300 evs hne hgaps⟩

/-- C2 witness: three events at 0, 100 and 250 ms, each within 300 ms of
the previous, coalesce into the single write at 550 ms of the state after
the third mutation. -/
theorem debounce_coalescing_witness :
    onChange false false false = [SaveCall.debounced] ∧
    debouncedWrites 300 [(0, "s1"), (100, "s2"), (250, "s3")] =
      [(([((0 : Nat), "s1"), (100, "s2"),
          (250, "s3")].getLast (by simp)).1 + 300,
        ([((0 : Nat), "s1"), (100, "s2"),
          (250, "s3")].getLast (by simp)).2)] :=
  debounce_coalescing [(0, "s1"), (100, "s2"), (250, "s3")] (by simp)
    (by simp)

/-- C5 counterexample: the claim states that the polling waiting for the
Editing Surface stops once the surface exists.  In the code the interval
is cleared only when tryApply returns true, which requires a buffered
blob: from a state whose surface exists but whose `pendingRemoteJson` is
empty, a poll tick leaves polling active. -/
theorem deferred_apply_counterexample :
    (SyncState.mk Option.none false false Option.none
        (Option.some "s0") "Ready").surface.isSome = true ∧
    pollStep (SyncState.mk Option.none false false Option.none
        (Option.some "s0") "Ready") true =
      (SyncState.mk Option.none false false Option.none
        (Option.some "s0") "Ready", true) :=
  ⟨rfl, rfl⟩

/-- C5 (amended): a remote blob arriving before the Editing Surface exists
is buffered in `pendingRemoteJson`; once the surface exists, the poll
applies the buffered blob exactly once (loading it into the surface and
clearing the buffer, so a repeated poll does not reapply it) and the
polling stops at that tick; with no buffered blob the polling continues
even after the surface exists. -/
theorem deferred_apply (st : SyncState) (cur b : String)
    (hs : st.surface = Option.some cur)
    (hp : st.pendingRemoteJson = Option.some b) (hb : b ≠ "") :
    tryApply st =
      ({ st with isApplyingRemote := true
                 pendingRemoteJson := Option.none
                 surface := Option.some b
                 status := "Updated from remote" }, true) ∧
    pollStep st true = ((tryApply st).1, false) ∧
    tryApply (tryApply st).1 = ((tryApply st).1, false) ∧
    (∀ (st0 : SyncState) (d : StoredDoc), st0.surface = Option.none →
      d.data = Option.some b →
      onSnapshotCb st0 (Option.some d) =
        ({ st0 with pendingRemoteJson := Option.some b },
         SnapEffect.buffer b)) := by
  have h1 : tryApply st =
      ({ st with isApplyingRemote := true
                 pendingRemoteJson := Option.none
                 surface := Option.some b
                 status := "Updated from remote" }, true) := by
    simp [tryApply, hs, hp, hb]
  refine ⟨h1, ?_, ?_, ?_⟩
  · simp [pollStep, h1]
  · rw [h1]
    simp [tryApply]
  · intro st0 d h0 hd
    simp [onSnapshotCb, hd, hb, h0]

/-- C5 witness: a concrete run of the amended deferred-apply theorem. -/
theorem deferred_apply_witness :
    tryApply (SyncState.mk Option.none false false (Option.some "p1")
        (Option.some "s1") "Ready") =
      ({ SyncState.mk Option.none false false (Option.some "p1")
          (Option.some "s1") "Ready" with
         isApplyingRemote := true
         pendingRemoteJson := Option.none
         surface := Option.some "p1"
         status := "Updated from remote" }, true) ∧
    pollStep (SyncState.mk Option.none false false (Option.some "p1")
        (Option.some "s1") "Ready") true =
      ((tryApply (SyncState.mk Option.none false false (Option.some "p1")
          (Option.some "s1") "Ready")).1, false) ∧
    tryApply (tryApply (SyncState.mk Option.none false false
        (Option.some "p1") (Option.some "s1") "Ready")).1 =
      ((tryApply (SyncState.mk Option.none false false (Option.some "p1")
          (Option.some "s1") "Ready")).1, false) ∧
    (∀ (st0 : SyncState) (d : StoredDoc), st0.surface = Option.none →
      d.data = Option.some "p1" →
      onSnapshotCb st0 (Option.some d) =
        ({ st0 with pendingRemoteJson := Option.some "p1" },
         SnapEffect.buffer "p1")) :=
  deferred_apply
    (SyncState.mk Option.none false false (Option.some "p1")
      (Option.some "s1") "Ready")
    "s1" "p1" rfl rfl (by decide)

/-- C9 counterexample: the claim states that a remote notification
carrying a malformed (non-deserializable) blob is ignored with no reload
of the Editing Surface.  The code performs no deserializability check:
for the blob "@@@" (which cannot begin a JSON document, hence is not
deserializable) differing from the current surface state and not equal to
`lastLocalJson`, the callback issues a reload command carrying it. -/
theorem malformed_blob_counterexample :
    couldBeJson "@@@" = false ∧
    (onSnapshotCb (SyncState.mk Option.none false false Option.none
        (Option.some "s0") "Ready")
      (Option.some (StoredDoc.mk (Option.some "@@@") Option.none
        Option.none Option.none))).2 = SnapEffect.reload "@@@" := by
  refine ⟨?_, ?_⟩
  · rfl
  · simp [onSnapshotCb]

/-- C9 (amended): an absent document and a document without a truthy
`data` field are silently ignored — the reconciliation state (including
the status signal) is unchanged and no reload is issued; malformedness of
a present blob is not detected: any truthy blob that differs from the
current surface state and is not the recorded echo is handed to the
Editing Surface's load command, whether deserializable or not. -/
theorem missing_blob_handling (st : SyncState) (cur b : String)
    (d : StoredDoc) (hs : st.surface = Option.some cur)
    (hd : d.data = Option.some b) (hb : b ≠ "")
    (hecho : st.lastLocalJson ≠ Option.some b) (hdiff : cur ≠ b) :
    onSnapshotCb st Option.none = (st, SnapEffect.skip) ∧
    (∀ d0 : StoredDoc, d0.data = Option.none →
      onSnapshotCb st (Option.some d0) = (st, SnapEffect.skip)) ∧
    (onSnapshotCb st (Option.some d)).2 = SnapEffect.reload b := by
  refine ⟨rfl, ?_, ?_⟩
  · intro d0 h0
    simp [onSnapshotCb, h0]
  · simp [onSnapshotCb, hd, hb, hs, hecho, hdiff]

/-- C9 witness: a concrete run of the amended missing-blob theorem. -/
theorem missing_blob_handling_witness :
    onSnapshotCb (SyncState.mk (Option.some "z") false false Option.none
        (Option.some "s6") "Ready") Option.none =
      (SyncState.mk (Option.some "z") false false Option.none
        (Option.some "s6") "Ready", SnapEffect.skip) ∧
    (∀ d0 : StoredDoc, d0.data = Option.none →
      onSnapshotCb (SyncState.mk (Option.some "z") false false Option.none
          (Option.some "s6") "Ready") (Option.some d0) =
        (SyncState.mk (Option.some "z") false false Option.none
          (Option.some "s6") "Ready", SnapEffect.skip)) ∧
    (onSnapshotCb (SyncState.mk (Option.some "z") false false Option.none
        (Option.some "s6") "Ready")
      (Option.some (StoredDoc.mk (Option.some "b6") Option.none
        Option.none Option.none))).2 = SnapEffect.reload "b6" :=
  missing_blob_handling
    (SyncState.mk (Option.some "z") false false Option.none
      (Option.some "s6") "Ready")
    "s6" "b6"
    (StoredDoc.mk (Option.some "b6") Option.none Option.none Option.none)
    rfl rfl (by decide) (by decide) (by decide)

end CanvasSync
